import Mathlib

/-!
Shallow embedding of the agent-rag service: the index-building pipeline of
`src/src/indexing.py` and the HTTP handlers of `src/api/main.py`.

External libraries (document loading, sentence splitting, the language model,
the embedding model) are passed in as function parameters; the Weaviate vector
store is modelled as an explicit state of named collections.
-/

/-- A vector-store chunk: the text of a split document span. -/
abbrev Chunk := String

/-- A loaded document's raw text. -/
abbrev Doc := String

/-- A retrieved source node's text. -/
abbrev SourceNode := String

/-- State of the Weaviate vector store: the named collections and their chunks. -/
structure VSState where
  collections : List (String × List Chunk)
deriving DecidableEq

/-- Embeds `client.collections.exists(index_name)`. -/
def collExists (s : VSState) (n : String) : Bool :=
  s.collections.any (fun e => e.1 == n)

/-- Embeds `client.collections.delete(index_name)`. -/
def deleteColl (s : VSState) (n : String) : VSState :=
  ⟨s.collections.filter (fun e => !(e.1 == n))⟩

/-- Embeds `client.collections.create(name=index_name)`: a fresh empty collection. -/
def createColl (s : VSState) (n : String) : VSState :=
  ⟨s.collections ++ [(n, [])]⟩

/-- Embeds the `VectorStoreIndex` write through `WeaviateVectorStore`: the nodes are
appended to the collection named `n`. -/
def writeColl (s : VSState) (n : String) (ch : List Chunk) : VSState :=
  ⟨s.collections.map (fun e => if e.1 == n then (e.1, e.2 ++ ch) else e)⟩

/-- The content of the collection named `n`, when one exists. -/
def lookupColl (s : VSState) (n : String) : Option (List Chunk) :=
  (s.collections.find? (fun e => e.1 == n)).map (fun e => e.2)

/-- How many collections named `n` the store holds. -/
def collCount (s : VSState) (n : String) : Nat :=
  s.collections.countP (fun e => e.1 == n)

/-- Weaviate client connection events of one `create_document_index` run. -/
inductive WeaviateEvent
  | openConn
  | closeConn
deriving DecidableEq

/-- Failure-injection points of `create_document_index`, one per operation of the
function body that can raise. -/
inductive CdiFail
  | connect
  | existsCheck
  | delete
  | create
  | load
  | split
  | write
deriving DecidableEq

/-- Embedding of `create_document_index` in `src/src/indexing.py` (lines 32-73).
`load` stands for `SimpleDirectoryReader(...).load_data()` and `splitter` for
`SentenceSplitter(chunk_size, chunk_overlap).get_nodes_from_documents`. `failAt`
injects a failure at the corresponding operation (`none`: every operation
succeeds). Returns the connection-event trace, the vector-store state at exit,
and the propagated error, if any: the `finally` block closes the client exactly
when `client` was bound, i.e. when the connect step did not itself raise. -/
def create_document_index (load : List String → List Doc)
    (splitter : Nat → Nat → List Doc → List Chunk)
    (failAt : Option CdiFail) (input_files : List String) (index_name : String)
    (chunk_size chunk_overlap : Nat) (s : VSState) :
    List WeaviateEvent × VSState × Option String :=
  if failAt = some CdiFail.connect then
    ([], s, some "weaviate connection failed")
  else
    let r : VSState × Option String :=
      if failAt = some CdiFail.existsCheck then (s, some "collection exists check failed")
      else if collExists s index_name ∧ failAt = some CdiFail.delete then
        (s, some "collection delete failed")
      else
        let s1 := if collExists s index_name then deleteColl s index_name else s
        if failAt = some CdiFail.create then (s1, some "collection create failed")
        else
          let s2 := createColl s1 index_name
          if failAt = some CdiFail.load then (s2, some "document load failed")
          else
            let docs := load input_files
            if failAt = some CdiFail.split then (s2, some "sentence split failed")
            else
              let nodes := splitter chunk_size chunk_overlap docs
              if failAt = some CdiFail.write then (s2, some "vector write failed")
              else (writeColl s2 index_name nodes, none)
    ([WeaviateEvent.openConn, WeaviateEvent.closeConn], r.1, r.2)

/-- A Python exception, tagged by class. -/
inductive PyError
  | valueError (msg : String)
  | typeError (msg : String)
  | other (msg : String)
deriving DecidableEq

/-- Embeds Python `str(e)` on an exception. -/
def PyError.message : PyError → String
  | .valueError m => m
  | .typeError m => m
  | .other m => m

/-- A FastAPI `HTTPException(status_code, detail)`. -/
structure HTTPException where
  status : Nat
  detail : String
deriving DecidableEq

/-- The JSON body returned by a successful `/build-index` request. -/
structure BuildSuccess where
  status : String
  message : String
  num_files : Nat
deriving DecidableEq

/-- A file-system node: a regular file, or a directory with its named entries. -/
inductive FSEntry
  | file
  | dir (entries : List (String × FSEntry))

/-- Whether a file-system node is a regular file. -/
def isFileEntry : FSEntry → Bool
  | FSEntry.file => true
  | FSEntry.dir _ => false

/-- Embedding of `get_all_files_from_directory` in `src/src/indexing.py`
(lines 17-30). `st` is the file-system node at `directory_path` (`none` when the
path does not exist): the function raises `ValueError` unless the path is an
existing directory, and otherwise returns the paths of the directory's regular
files (`path.glob("*")` filtered by `is_file()`), with no extension filtering. -/
def get_all_files_from_directory (st : Option FSEntry) (p : String) :
    Except PyError (List String) :=
  match st with
  | some (FSEntry.dir es) =>
    Except.ok ((es.filter (fun e => isFileEntry e.2)).map (fun e => p ++ "/" ++ e.1))
  | _ => Except.error (PyError.valueError ("Invalid directory path: " ++ p))

/-- Embeds Python `s.endswith(suffix)` on the character sequences. -/
def strEndsWith (s suff : String) : Bool :=
  suff.data.isSuffixOf s.data

/-- Embeds Python `s.startswith(pre)` on the character sequences. -/
def strStartsWith (s pre : String) : Bool :=
  pre.data.isPrefixOf s.data

/-- Whether a file name passes the optional extension filter. -/
def matchesExt (ext : Option String) (name : String) : Bool :=
  match ext with
  | none => true
  | some e => strEndsWith name e

/-- Modelled from the spec: `src/utils.py` is not under `src/`, yet
`src/api/main.py` imports `get_all_files_from_directory` from `src.utils` and
passes it a `file_extension` keyword argument. Per the spec ("file paths or
directory + extension filter"), it returns the directory's regular files that
match the optional extension filter, and fails on an invalid directory path. -/
def utils_get_all_files_from_directory (st : Option FSEntry) (p : String)
    (ext : Option String) : Except PyError (List String) :=
  match st with
  | some (FSEntry.dir es) =>
    Except.ok ((es.filter (fun e => isFileEntry e.2 && matchesExt ext e.1)).map
      (fun e => p ++ "/" ++ e.1))
  | _ => Except.error (PyError.valueError ("Invalid directory path: " ++ p))

/-- Python keyword-argument binding: a call with keyword arguments `kwargs`
binds against a function with parameters `params` (of which `required` have no
default) exactly when every keyword names a declared parameter and every
required parameter is supplied; otherwise the call raises `TypeError`. -/
def acceptsKwargs (params required kwargs : List String) : Bool :=
  kwargs.all (fun k => params.contains k) && required.all (fun k => kwargs.contains k)

/-- Declared parameters of `create_document_index` (`src/src/indexing.py` line 32). -/
def create_document_index_params : List String :=
  ["input_files", "index_name", "chunk_size", "chunk_overlap"]

/-- Parameters of `create_document_index` without a default value. -/
def create_document_index_required : List String :=
  ["input_files", "index_name"]

/-- Declared parameters of `build_automerging_index` (`src/src/indexing.py` lines 134-140). -/
def build_automerging_index_params : List String :=
  ["documents", "llm", "embed_model", "save_dir", "chunk_sizes"]

/-- Parameters of `build_automerging_index` without a default value. -/
def build_automerging_index_required : List String :=
  ["documents", "llm"]

/-- Declared parameters of `build_sentence_window_index` (`src/src/indexing.py` lines 89-91). -/
def build_sentence_window_index_params : List String :=
  ["document", "llm", "embed_model", "save_dir"]

/-- Parameters of `build_sentence_window_index` without a default value. -/
def build_sentence_window_index_required : List String :=
  ["document", "llm"]

/-- Keyword arguments of the API's basic-strategy builder call (`src/api/main.py` lines 152-157). -/
def apiBasicKwargs : List String :=
  ["input_files", "index_name", "chunk_size", "chunk_overlap"]

/-- Keyword arguments of the API's automerging builder call (`src/api/main.py` lines 159-163). -/
def apiAutomergingKwargs : List String :=
  ["input_files", "index_name", "chunk_sizes"]

/-- Keyword arguments of the API's sentence-window builder call (`src/api/main.py` lines 165-168). -/
def apiSentenceWindowKwargs : List String :=
  ["input_files", "index_name"]

/-- The `input_path` field of `BuildIndexRequest`: a directory path string or a
list of file paths. -/
inductive InputPath
  | dirPath (d : String)
  | fileList (files : List String)

/-- The `/build-index` request body (`src/api/main.py` lines 49-56). -/
structure BuildIndexRequest where
  input_path : InputPath
  index_name : String
  index_type : String := "basic"
  file_extension : Option String := none
  chunk_size : Nat := 1024
  chunk_overlap : Nat := 200
  chunk_sizes : Option (List Nat) := none

/-- The input-path resolution step of `build_index_api` (`src/api/main.py`
lines 136-145): a directory string is scanned with the extension filter, a file
list is used as-is. `fs` maps a path to its file-system node. -/
def resolveInputFiles (fs : String → Option FSEntry) (req : BuildIndexRequest) :
    Except PyError (List String) :=
  match req.input_path with
  | InputPath.dirPath d => utils_get_all_files_from_directory (fs d) d req.file_extension
  | InputPath.fileList l => Except.ok l

/-- Modelled from the spec: `build_basic_fixed_size_index` is imported by the API
from `src.indexing` but is absent from `src/src/indexing.py`. Per the spec, the
basic strategy is the fixed-size destructive build, i.e. `create_document_index`
(whose declared parameters the API call's keywords match exactly), run with no
injected failure. -/
def build_basic_fixed_size_index (load : List String → List Doc)
    (splitter : Nat → Nat → List Doc → List Chunk) (input_files : List String)
    (index_name : String) (chunk_size chunk_overlap : Nat) (s : VSState) :
    List WeaviateEvent × VSState × Option String :=
  create_document_index load splitter none input_files index_name chunk_size chunk_overlap s

/-- The strategy dispatch of the `/build-index` handler after input resolution
(`src/api/main.py` lines 147-176): the empty-file check, then the builder call
selected by `index_type`. A builder call whose keyword arguments do not bind
raises `TypeError`. The automerging and sentence-window branches call builders
that never touch the Weaviate store (they persist to local directories), so
the store is untouched there whether or not the keyword arguments bind. -/
def buildWithFiles (load : List String → List Doc)
    (splitter : Nat → Nat → List Doc → List Chunk)
    (req : BuildIndexRequest) (input_files : List String) (s : VSState) :
    Except PyError BuildSuccess × VSState :=
    if input_files.isEmpty then
      (Except.error (PyError.valueError "No valid input files found"), s)
    else if req.index_type == "basic" then
      if acceptsKwargs create_document_index_params create_document_index_required
          apiBasicKwargs then
        let r := build_basic_fixed_size_index load splitter input_files req.index_name
          req.chunk_size req.chunk_overlap s
        match r.2.2 with
        | some m => (Except.error (PyError.other m), r.2.1)
        | none =>
          (Except.ok ⟨"success",
            "Index \x27" ++ req.index_name ++ "\x27 built successfully",
            input_files.length⟩, r.2.1)
      else
        (Except.error (PyError.typeError
          "build_basic_fixed_size_index() got an unexpected keyword argument"), s)
    else if req.index_type == "automerging" then
      if acceptsKwargs build_automerging_index_params build_automerging_index_required
          apiAutomergingKwargs then
        (Except.ok ⟨"success",
          "Index \x27" ++ req.index_name ++ "\x27 built successfully",
          input_files.length⟩, s)
      else
        (Except.error (PyError.typeError
          "build_automerging_index() got an unexpected keyword argument \x27input_files\x27"), s)
    else if req.index_type == "sentence_window" then
      if acceptsKwargs build_sentence_window_index_params build_sentence_window_index_required
          apiSentenceWindowKwargs then
        (Except.ok ⟨"success",
          "Index \x27" ++ req.index_name ++ "\x27 built successfully",
          input_files.length⟩, s)
      else
        (Except.error (PyError.typeError
          "build_sentence_window_index() got an unexpected keyword argument \x27input_files\x27"), s)
    else
      (Except.error (PyError.valueError ("Invalid index type: " ++ req.index_type)), s)

/-- The body of the `/build-index` handler inside its `try` block
(`src/api/main.py` lines 136-176): input-path resolution followed by the
strategy dispatch, returning the raised Python error or the success body,
together with the vector-store state at exit. -/
def buildIndexCore (load : List String → List Doc)
    (splitter : Nat → Nat → List Doc → List Chunk)
    (fs : String → Option FSEntry) (req : BuildIndexRequest) (s : VSState) :
    Except PyError BuildSuccess × VSState :=
  match resolveInputFiles fs req with
  | Except.error e => (Except.error e, s)
  | Except.ok input_files => buildWithFiles load splitter req input_files s

/-- The `/build-index` endpoint (`src/api/main.py` lines 133-179): the `except`
clause maps any raised exception to `HTTPException(status_code=500, detail=str(e))`. -/
def build_index_api (load : List String → List Doc)
    (splitter : Nat → Nat → List Doc → List Chunk)
    (fs : String → Option FSEntry) (req : BuildIndexRequest) (s : VSState) :
    Except HTTPException BuildSuccess × VSState :=
  let r := buildIndexCore load splitter fs req s
  (r.1.mapError (fun e => ⟨500, e.message⟩), r.2)

/-- The `/query` request body (`src/api/main.py` lines 39-43). -/
structure QueryRequest where
  question : String
  index_names : List String
  similarity_top_k : Nat := 12
  chat_record_dir : String := "/Users/Daglas/dalong.github/dalong.chatrecord/chatrecord-origin/"

/-- The `/chat` request body (`src/api/main.py` lines 45-47). -/
structure ChatRequest where
  question : String
  chat_record_dir : String := "/Users/Daglas/dalong.github/dalong.chatrecord/chatrecord-origin/"

/-- Embeds `os.path.join(a, b)` (posix): an absolute second component replaces
the first; otherwise the components are joined with a separator unless the
first is empty or already ends with one. -/
def os_path_join (a b : String) : String :=
  if strStartsWith b "/" then b
  else if a == "" || strEndsWith a "/" then a ++ b
  else a ++ "/" ++ b

/-- The `/query` transcript base name, `f"{get_timestamp()}RAG-{get_chat_file_name(q)}"`
(`src/api/main.py` line 65). `ts` stands for `get_timestamp()` and `san` for the
question sanitizer `get_chat_file_name`, both imported from the absent `src/utils.py`. -/
def queryFileName (ts : String) (san : String → String) (q : String) : String :=
  ts ++ "RAG-" ++ san q

/-- The `/chat` transcript base name, `f"{get_timestamp()}Chat-{get_chat_file_name(q)}"`
(`src/api/main.py` line 109). -/
def chatFileName (ts : String) (san : String → String) (q : String) : String :=
  ts ++ "Chat-" ++ san q

/-- The `/query` transcript path, `os.path.join(chat_record_dir, f"{file_name}.md")`
(`src/api/main.py` lines 66-69). -/
def queryRecordFile (ts : String) (san : String → String) (dir q : String) : String :=
  os_path_join dir (queryFileName ts san q ++ ".md")

/-- The `/chat` transcript path (`src/api/main.py` lines 110-113). -/
def chatRecordFile (ts : String) (san : String → String) (dir q : String) : String :=
  os_path_join dir (chatFileName ts san q ++ ".md")

/-- The structured content of one persisted transcript file. -/
structure ChatRecord where
  fileName : String
  question : String
  answer : String
  sources : Option String
deriving DecidableEq

/-- The exact text written to the transcript file: the f-strings at
`src/api/main.py` line 98 (`/query`, with a `[source_datas]` section) and
line 125 (`/chat`, without one). -/
def ChatRecord.render (r : ChatRecord) : String :=
  r.fileName ++ "\n\n[question]:\n\n" ++ r.question ++ "\n\n[answer]:\n\n" ++ r.answer ++
    (match r.sources with
     | some s => "\n\n[source_datas]:\n\n" ++ s
     | none => "")

/-- Observable events of one consumption of a streaming-response generator:
fragments yielded to the caller, transcript file writes, and an uncaught
exception ending the stream. -/
inductive StreamEvent
  | yieldFrag (s : String)
  | writeFile (path : String) (record : ChatRecord)
  | raiseErr (msg : String)
deriving DecidableEq

/-- The `full_response` accumulator: starts empty and appends each chunk in turn
(`src/api/main.py` lines 85, 94). -/
def accumulated (l : List String) : String := l.foldl (fun a b => a ++ b) ""

/-- The fragments a stream yielded, in order. -/
def yieldedFrags (evs : List StreamEvent) : List String :=
  evs.filterMap (fun e => match e with | StreamEvent.yieldFrag s => some s | _ => none)

/-- Modelled from the spec: `src/retrieval.py` is not under `src/`, yet the API
imports `basic_query_from_documents` from it. Per the spec, retrieval against a
non-existent index name fails with a lookup error; otherwise it returns the
source nodes retrieved from the named indexes. `known` is the set of existing
collection names and `nodesFor` the per-index retrieval result. -/
def basic_query_from_documents (known : List String)
    (nodesFor : String → List SourceNode) (index_names : List String) :
    Except String (List SourceNode) :=
  if index_names.all (fun n => known.contains n) then
    Except.ok ((index_names.map nodesFor).flatten)
  else Except.error "index not found"

/-- The `generate` async generator of the `/query` handler (`src/api/main.py`
lines 71-98), as the event trace of one full consumption: retrieval runs first
inside the generator; on success every model chunk is yielded and the
transcript is written once at the end; a retrieval failure raises before any
fragment is yielded. `retrieve` stands for `basic_query_from_documents` applied
to the request's question and top-k, `printData` for `print_data_sources`, and
`llm` for the model's streamed chunk contents. -/
def queryGenerate (retrieve : List String → Except String (List SourceNode))
    (printData : List SourceNode → String) (llm : List String)
    (ts : String) (san : String → String) (req : QueryRequest) : List StreamEvent :=
  match retrieve req.index_names with
  | Except.error e => [StreamEvent.raiseErr e]
  | Except.ok nodes =>
    llm.map StreamEvent.yieldFrag ++
      [StreamEvent.writeFile (queryRecordFile ts san req.chat_record_dir req.question)
        ⟨queryFileName ts san req.question, req.question, accumulated llm,
          some (printData nodes)⟩]

/-- The `/query` endpoint (`src/api/main.py` lines 62-103): the `try` block only
computes the transcript path and constructs the `StreamingResponse`; the
generator body runs after the handler has returned, outside the `except`
clause, so its failures never become an `HTTPException`. -/
def query_from_documents_api (retrieve : List String → Except String (List SourceNode))
    (printData : List SourceNode → String) (llm : List String)
    (ts : String) (san : String → String) (req : QueryRequest) :
    Except HTTPException (List StreamEvent) :=
  Except.ok (queryGenerate retrieve printData llm ts san req)

/-- The `generate` async generator of the `/chat` handler (`src/api/main.py`
lines 115-125): no retrieval; every model chunk is yielded and the transcript is
written once at the end, without a sources section. -/
def chatGenerate (llm : List String) (ts : String) (san : String → String)
    (req : ChatRequest) : List StreamEvent :=
  llm.map StreamEvent.yieldFrag ++
    [StreamEvent.writeFile (chatRecordFile ts san req.chat_record_dir req.question)
      ⟨chatFileName ts san req.question, req.question, accumulated llm, none⟩]

/-- The `/chat` endpoint (`src/api/main.py` lines 106-130). -/
def chat_with_llm_api (llm : List String) (ts : String) (san : String → String)
    (req : ChatRequest) : Except HTTPException (List StreamEvent) :=
  Except.ok (chatGenerate llm ts san req)

/-! ## Helper facts -/

/-- Whether a call result is a raised exception. -/
def isErr {ε α : Type} : Except ε α → Bool
  | Except.error _ => true
  | Except.ok _ => false

/-- A concrete document loader for witnesses: each input file is one document. -/
def load0 : List String → List Doc := fun l => l

/-- A concrete splitter for witnesses: one chunk per document. -/
def splitter0 : Nat → Nat → List Doc → List Chunk := fun _ _ d => d

/-- A concrete file system for witnesses: no path exists. -/
def fs0 : String → Option FSEntry := fun _ => none

/-- A concrete source formatter for witnesses. -/
def printData0 : List SourceNode → String := fun _ => ""

/-- A concrete question sanitizer for witnesses. -/
def san0 : String → String := fun q => q

/-- A concrete file system for witnesses: one directory "docs" holding two
regular files and a subdirectory. -/
def fsW : String → Option FSEntry := fun p =>
  if p == "docs" then
    some (FSEntry.dir [("a.md", FSEntry.file), ("sub", FSEntry.dir []),
      ("b.txt", FSEntry.file)])
  else none

theorem purge_no_match (s : VSState) (n : String) :
    ∀ e ∈ (if collExists s n then deleteColl s n else s).collections, (e.1 == n) = false := by
  intro e he
  by_cases h : collExists s n
  · rw [if_pos h] at he
    simp only [deleteColl, List.mem_filter] at he
    simpa using he.2
  · rw [if_neg h] at he
    simp only [collExists, List.any_eq_true, not_exists, not_and] at h
    simpa using fun hx => h e he hx

theorem build_entry_core (n : String) (ch : List Chunk) :
    ∀ l : List (String × List Chunk), (∀ e ∈ l, (e.1 == n) = false) →
      ((l ++ [(n, ([] : List Chunk))]).map
          (fun e => if e.1 == n then (e.1, e.2 ++ ch) else e)).find?
          (fun e => e.1 == n) = some (n, ch)
      ∧ ((l ++ [(n, ([] : List Chunk))]).map
          (fun e => if e.1 == n then (e.1, e.2 ++ ch) else e)).countP
          (fun e => e.1 == n) = 1 := by
  intro l
  induction l with
  | nil =>
    intro _
    simp [List.find?, List.countP, List.countP.go]
  | cons e t ih =>
    intro h
    have he : (e.1 == n) = false := h e (by simp)
    have ht : ∀ x ∈ t, (x.1 == n) = false := fun x hx => h x (by simp [hx])
    obtain ⟨ih1, ih2⟩ := ih ht
    constructor
    · rw [List.cons_append, List.map_cons,
        List.find?_cons_of_neg _ (by simp [he]), ih1]
    · rw [List.cons_append, List.map_cons,
        List.countP_cons_of_neg _ _ (by simp [he]), ih2]

theorem cdi_none_eq (load : List String → List Doc)
    (splitter : Nat → Nat → List Doc → List Chunk) (files : List String)
    (n : String) (cs co : Nat) (s : VSState) :
    create_document_index load splitter none files n cs co s =
      ([WeaviateEvent.openConn, WeaviateEvent.closeConn],
        writeColl (createColl (if collExists s n then deleteColl s n else s) n) n
          (splitter cs co (load files)), none) := by
  simp [create_document_index]

theorem cdi_builds_collection (load : List String → List Doc)
    (splitter : Nat → Nat → List Doc → List Chunk) (files : List String)
    (n : String) (cs co : Nat) (s : VSState) :
    lookupColl (create_document_index load splitter none files n cs co s).2.1 n =
      some (splitter cs co (load files))
    ∧ collCount (create_document_index load splitter none files n cs co s).2.1 n = 1 := by
  rw [cdi_none_eq]
  obtain ⟨h1, h2⟩ := build_entry_core n (splitter cs co (load files)) _ (purge_no_match s n)
  constructor
  · simp only [lookupColl, writeColl, createColl, h1]
    rfl
  · simpa only [collCount, writeColl, createColl] using h2

/-! ## Claims -/

/-- C7: for every execution of `create_document_index`, whether it returns
normally or raises at any operation, if the Weaviate client connection was
opened then it is closed before the function exits: the connection-event trace
is exactly open-then-close. Only when the connect call itself raises is no
connection opened (and none closed). -/
theorem weaviate_conn_always_closed (load : List String → List Doc)
    (splitter : Nat → Nat → List Doc → List Chunk) (failAt : Option CdiFail)
    (files : List String) (n : String) (cs co : Nat) (s : VSState)
    (h : WeaviateEvent.openConn ∈ (create_document_index load splitter failAt files n cs co s).1) :
    (create_document_index load splitter failAt files n cs co s).1 =
      [WeaviateEvent.openConn, WeaviateEvent.closeConn] := by
  unfold create_document_index at h ⊢
  by_cases hc : failAt = some CdiFail.connect
  · simp [hc] at h
  · simp [hc]

/-- Witness for C7: a concrete run with a write failure injected still closes
the connection. -/
theorem weaviate_conn_always_closed_witness :
    (create_document_index load0 splitter0 (some CdiFail.write) ["f"] "idx" 1024 200
      ⟨[]⟩).1 = [WeaviateEvent.openConn, WeaviateEvent.closeConn] :=
  weaviate_conn_always_closed load0 splitter0 (some CdiFail.write) ["f"] "idx" 1024 200
    ⟨[]⟩ (by decide)

/-- C3: a `/build-index` request whose resolved input file set is empty fails
with the `ValueError` "No valid input files found" (surfaced as HTTP 500 with
that detail), and the vector-store state is returned unchanged: the check runs
before any builder is invoked, so no collection is created, deleted or written. -/
theorem emptyInput_validation_error (load : List String → List Doc)
    (splitter : Nat → Nat → List Doc → List Chunk) (fs : String → Option FSEntry)
    (req : BuildIndexRequest) (s : VSState)
    (h : resolveInputFiles fs req = Except.ok []) :
    buildIndexCore load splitter fs req s =
      (Except.error (PyError.valueError "No valid input files found"), s)
    ∧ build_index_api load splitter fs req s =
      (Except.error ⟨500, "No valid input files found"⟩, s) := by
  unfold build_index_api buildIndexCore
  rw [h]
  exact ⟨rfl, rfl⟩

/-- Witness for C3: an empty explicit file list, against a store already holding
a collection, errors and leaves the store intact. -/
theorem emptyInput_validation_error_witness :
    buildIndexCore load0 splitter0 fs0
      ⟨InputPath.fileList [], "idx", "basic", none, 1024, 200, none⟩ ⟨[("idx", ["x"])]⟩ =
      (Except.error (PyError.valueError "No valid input files found"), ⟨[("idx", ["x"])]⟩)
    ∧ build_index_api load0 splitter0 fs0
      ⟨InputPath.fileList [], "idx", "basic", none, 1024, 200, none⟩ ⟨[("idx", ["x"])]⟩ =
      (Except.error ⟨500, "No valid input files found"⟩, ⟨[("idx", ["x"])]⟩) :=
  emptyInput_validation_error load0 splitter0 fs0
    ⟨InputPath.fileList [], "idx", "basic", none, 1024, 200, none⟩ ⟨[("idx", ["x"])]⟩ rfl

/-- C10: `get_all_files_from_directory` raises `ValueError` exactly when the
path does not exist or is not a directory; on a directory it returns exactly
the paths of the top-level regular files: subdirectories (and anything nested
in them) are excluded and no extension filtering is applied. -/
theorem gaffd_dir_listing_spec (st : Option FSEntry) (p : String) :
    (isErr (get_all_files_from_directory st p) = true ↔
      st = none ∨ st = some FSEntry.file)
    ∧ (∀ es, st = some (FSEntry.dir es) →
        ∃ l, get_all_files_from_directory st p = Except.ok l ∧
          ∀ x, x ∈ l ↔ ∃ name, (name, FSEntry.file) ∈ es ∧ x = p ++ "/" ++ name) := by
  constructor
  · cases st with
    | none => simp [get_all_files_from_directory, isErr]
    | some e =>
      cases e with
      | file => simp [get_all_files_from_directory, isErr]
      | dir es => simp [get_all_files_from_directory, isErr]
  · intro es hst
    subst hst
    refine ⟨_, rfl, ?_⟩
    intro x
    simp only [get_all_files_from_directory, List.mem_map, List.mem_filter]
    constructor
    · rintro ⟨⟨name, entry⟩, ⟨hmem, hfile⟩, rfl⟩
      cases entry with
      | file => exact ⟨name, hmem, rfl⟩
      | dir sub => simp [isFileEntry] at hfile
    · rintro ⟨name, hmem, rfl⟩
      exact ⟨(name, FSEntry.file), ⟨hmem, by simp [isFileEntry]⟩, rfl⟩

/-- Witness for C10: a missing path errors; a directory with one regular file
and one subdirectory lists the file. -/
theorem gaffd_dir_listing_spec_witness :
    isErr (get_all_files_from_directory none "missing") = true
    ∧ ∃ l, get_all_files_from_directory
        (some (FSEntry.dir [("a.md", FSEntry.file), ("sub", FSEntry.dir [])])) "docs" =
        Except.ok l ∧ "docs/a.md" ∈ l := by
  constructor
  · exact (gaffd_dir_listing_spec none "missing").1.mpr (Or.inl rfl)
  · obtain ⟨l, hl, hiff⟩ := (gaffd_dir_listing_spec
      (some (FSEntry.dir [("a.md", FSEntry.file), ("sub", FSEntry.dir [])])) "docs").2
      [("a.md", FSEntry.file), ("sub", FSEntry.dir [])] rfl
    exact ⟨l, hl, (hiff "docs/a.md").mpr ⟨"a.md", List.mem_cons_self _ _, rfl⟩⟩


theorem buildIndexCore_resolved (load : List String → List Doc)
    (splitter : Nat → Nat → List Doc → List Chunk) (fs : String → Option FSEntry)
    (req : BuildIndexRequest) (s : VSState) (files : List String)
    (hres : resolveInputFiles fs req = Except.ok files) :
    buildIndexCore load splitter fs req s = buildWithFiles load splitter req files s := by
  unfold buildIndexCore
  rw [hres]

theorem built_state_collection (ch : List Chunk) (n : String) (s : VSState) :
    lookupColl (writeColl (createColl
        (if collExists s n then deleteColl s n else s) n) n ch) n = some ch
    ∧ collCount (writeColl (createColl
        (if collExists s n then deleteColl s n else s) n) n ch) n = 1 := by
  obtain ⟨h1, h2⟩ := build_entry_core n ch _ (purge_no_match s n)
  constructor
  · simp only [lookupColl, writeColl, createColl, h1]
    rfl
  · simpa only [collCount, writeColl, createColl] using h2

theorem core_ok_of_api (load : List String → List Doc)
    (splitter : Nat → Nat → List Doc → List Chunk) (fs : String → Option FSEntry)
    (req : BuildIndexRequest) (s : VSState) (resp : BuildSuccess) (s' : VSState)
    (h : build_index_api load splitter fs req s = (Except.ok resp, s')) :
    buildIndexCore load splitter fs req s = (Except.ok resp, s') := by
  unfold build_index_api at h
  cases hc : buildIndexCore load splitter fs req s with
  | mk r st =>
    rw [hc] at h
    cases r with
    | error e => simp [Except.mapError] at h
    | ok x =>
      simp only [Except.mapError, Prod.mk.injEq, Except.ok.injEq] at h
      simp [h.1, h.2]

/-- C1: every successful `/build-index` request — under any chunking strategy —
leaves exactly one vector-store collection named by the request, and its
content is exactly the chunks this build produced from the resolved input
files (the splitter applied to the loaded documents). Any pre-existing
collection of that name is first deleted and replaced; since the pre-state `s`
is arbitrary (it may itself be the result of an earlier build of the same
name), building twice with the same name leaves only the second build's
chunks. Only the basic strategy can succeed (the other builders' calls do not
bind, see the C2 theorem), so the property holds for every successful build. -/
theorem buildIndex_destructive_overwrite (load : List String → List Doc)
    (splitter : Nat → Nat → List Doc → List Chunk) (fs : String → Option FSEntry)
    (req : BuildIndexRequest) (s : VSState) (resp : BuildSuccess) (s' : VSState)
    (h : build_index_api load splitter fs req s = (Except.ok resp, s')) :
    collCount s' req.index_name = 1
    ∧ ∃ files, resolveInputFiles fs req = Except.ok files
      ∧ lookupColl s' req.index_name =
        some (splitter req.chunk_size req.chunk_overlap (load files)) := by
  have hc := core_ok_of_api load splitter fs req s resp s' h
  cases hres : resolveInputFiles fs req with
  | error e =>
    rw [show buildIndexCore load splitter fs req s = (Except.error e, s) from
      by unfold buildIndexCore; rw [hres]] at hc
    simp at hc
  | ok files =>
    rw [buildIndexCore_resolved load splitter fs req s files hres] at hc
    unfold buildWithFiles at hc
    by_cases hemp : files.isEmpty = true
    · rw [if_pos hemp] at hc; simp at hc
    · rw [if_neg hemp] at hc
      by_cases hb : (req.index_type == "basic") = true
      · rw [if_pos hb] at hc
        have hak1 : acceptsKwargs create_document_index_params
            create_document_index_required apiBasicKwargs = true := by decide
        rw [if_pos hak1] at hc
        unfold build_basic_fixed_size_index at hc
        rw [cdi_none_eq] at hc
        simp only [Prod.mk.injEq, Except.ok.injEq] at hc
        obtain ⟨-, h2⟩ := hc
        subst h2
        exact ⟨(built_state_collection _ _ _).2, files, rfl,
          (built_state_collection _ _ _).1⟩
      · rw [if_neg hb] at hc
        by_cases ha : (req.index_type == "automerging") = true
        · rw [if_pos ha] at hc
          have hak2 : acceptsKwargs build_automerging_index_params
              build_automerging_index_required apiAutomergingKwargs = false := by decide
          rw [if_neg (by rw [hak2]; exact Bool.false_ne_true)] at hc
          simp at hc
        · rw [if_neg ha] at hc
          by_cases hw : (req.index_type == "sentence_window") = true
          · rw [if_pos hw] at hc
            have hak3 : acceptsKwargs build_sentence_window_index_params
                build_sentence_window_index_required apiSentenceWindowKwargs = false := by
              decide
            rw [if_neg (by rw [hak3]; exact Bool.false_ne_true)] at hc
            simp at hc
          · rw [if_neg hw] at hc; simp at hc

/-- Witness for C1: a basic build over a store that already held a collection
named "idx" replaces it with exactly the new build's chunks. -/
theorem buildIndex_destructive_overwrite_witness :
    collCount ⟨[("other", []), ("idx", ["f1"])]⟩ "idx" = 1
    ∧ ∃ files, resolveInputFiles fs0
        ⟨InputPath.fileList ["f1"], "idx", "basic", none, 1024, 200, none⟩ = Except.ok files
      ∧ lookupColl ⟨[("other", []), ("idx", ["f1"])]⟩ "idx" =
        some (splitter0 1024 200 (load0 files)) :=
  buildIndex_destructive_overwrite load0 splitter0 fs0
    ⟨InputPath.fileList ["f1"], "idx", "basic", none, 1024, 200, none⟩
    ⟨[("idx", ["old"]), ("other", [])]⟩
    ⟨"success", "Index \x27idx\x27 built successfully", 1⟩
    ⟨[("other", []), ("idx", ["f1"])]⟩ rfl

/-- C2: the API's automerging and sentence-window builder calls pass the
keyword arguments `input_files`/`index_name` (and `chunk_sizes`), which do not
bind against the builders' declared parameters (`documents`/`document`, `llm`,
`embed_model`, `save_dir`, `chunk_sizes`), so a `/build-index` request naming
either strategy always fails with HTTP 500 — whichever way input resolution
went — with the vector store returned unchanged: no index is ever built for
those strategies. -/
theorem brokenBuilder_calls_fail_500 :
    acceptsKwargs build_automerging_index_params build_automerging_index_required
      apiAutomergingKwargs = false
    ∧ acceptsKwargs build_sentence_window_index_params build_sentence_window_index_required
      apiSentenceWindowKwargs = false
    ∧ ∀ (load : List String → List Doc) (splitter : Nat → Nat → List Doc → List Chunk)
        (fs : String → Option FSEntry) (req : BuildIndexRequest) (s : VSState),
        req.index_type = "automerging" ∨ req.index_type = "sentence_window" →
        ∃ d, build_index_api load splitter fs req s = (Except.error ⟨500, d⟩, s) := by
  refine ⟨by decide, by decide, ?_⟩
  intro load splitter fs req s htype
  suffices hcore : ∃ d0 : PyError, buildIndexCore load splitter fs req s =
      (Except.error d0, s) by
    obtain ⟨d0, hd⟩ := hcore
    exact ⟨d0.message, by unfold build_index_api; rw [hd]; rfl⟩
  have hb : ¬((req.index_type == "basic") = true) := by
    rcases htype with ht | ht <;> rw [ht] <;> decide
  cases hres : resolveInputFiles fs req with
  | error e =>
    exact ⟨e, by unfold buildIndexCore; rw [hres]⟩
  | ok files =>
    rw [buildIndexCore_resolved load splitter fs req s files hres]
    unfold buildWithFiles
    by_cases hemp : files.isEmpty = true
    · exact ⟨PyError.valueError "No valid input files found", by rw [if_pos hemp]⟩
    · rw [if_neg hemp, if_neg hb]
      rcases htype with ht | ht
      · rw [if_pos (show (req.index_type == "automerging") = true by rw [ht]; decide)]
        rw [if_neg (show ¬(acceptsKwargs build_automerging_index_params
          build_automerging_index_required apiAutomergingKwargs = true) by decide)]
        exact ⟨_, rfl⟩
      · rw [if_neg (show ¬((req.index_type == "automerging") = true) by rw [ht]; decide)]
        rw [if_pos (show (req.index_type == "sentence_window") = true by rw [ht]; decide)]
        rw [if_neg (show ¬(acceptsKwargs build_sentence_window_index_params
          build_sentence_window_index_required apiSentenceWindowKwargs = true) by decide)]
        exact ⟨_, rfl⟩

/-- Witness for C2: a concrete automerging request with a non-empty file list
still fails with HTTP 500 and leaves the store unchanged. -/
theorem brokenBuilder_calls_fail_500_witness :
    ∃ d, build_index_api load0 splitter0 fs0
      ⟨InputPath.fileList ["f"], "idx", "automerging", none, 1024, 200, none⟩ ⟨[]⟩ =
      (Except.error ⟨500, d⟩, ⟨[]⟩) :=
  brokenBuilder_calls_fail_500.2.2 load0 splitter0 fs0
    ⟨InputPath.fileList ["f"], "idx", "automerging", none, 1024, 200, none⟩ ⟨[]⟩
    (Or.inl rfl)

/-- C4 counterexample: a `/build-index` request with an invalid `index_type`
("zzz") whose input resolution yields an empty file set fails at the earlier
empty-input check, so the HTTP 500 detail is "No valid input files found",
which does not contain the invalid index_type string — refuting the claim for
every such request. -/
theorem invalidType_detail_counterexample :
    build_index_api load0 splitter0 fs0
      ⟨InputPath.fileList [], "idx", "zzz", none, 1024, 200, none⟩ ⟨[]⟩ =
      (Except.error ⟨500, "No valid input files found"⟩, ⟨[]⟩)
    ∧ ¬ (("zzz" : String).data <:+: ("No valid input files found" : String).data) :=
  ⟨rfl, by decide⟩

/-- C4 (amended): a `/build-index` request whose input resolution succeeds with
a non-empty file set and whose `index_type` is none of "basic", "automerging",
"sentence_window" fails with HTTP 500 whose detail is
"Invalid index type: " followed by the index_type — in particular the detail
contains the invalid index_type string. -/
theorem invalidType_500_names_type (load : List String → List Doc)
    (splitter : Nat → Nat → List Doc → List Chunk) (fs : String → Option FSEntry)
    (req : BuildIndexRequest) (s : VSState) (files : List String)
    (hres : resolveInputFiles fs req = Except.ok files) (hne : files ≠ [])
    (h1 : req.index_type ≠ "basic") (h2 : req.index_type ≠ "automerging")
    (h3 : req.index_type ≠ "sentence_window") :
    build_index_api load splitter fs req s =
      (Except.error ⟨500, "Invalid index type: " ++ req.index_type⟩, s)
    ∧ req.index_type.data <:+: ("Invalid index type: " ++ req.index_type).data := by
  constructor
  · have hemp : ¬(files.isEmpty = true) := by
      cases files with
      | nil => exact absurd rfl hne
      | cons a t => simp [List.isEmpty]
    have hb1 : (req.index_type == "basic") = false := beq_eq_false_iff_ne.mpr h1
    have hb2 : (req.index_type == "automerging") = false := beq_eq_false_iff_ne.mpr h2
    have hb3 : (req.index_type == "sentence_window") = false := beq_eq_false_iff_ne.mpr h3
    have hcore : buildIndexCore load splitter fs req s =
        (Except.error (PyError.valueError ("Invalid index type: " ++ req.index_type)), s) := by
      rw [buildIndexCore_resolved load splitter fs req s files hres]
      unfold buildWithFiles
      rw [if_neg hemp, if_neg (by rw [hb1]; exact Bool.false_ne_true),
        if_neg (by rw [hb2]; exact Bool.false_ne_true),
        if_neg (by rw [hb3]; exact Bool.false_ne_true)]
    unfold build_index_api
    rw [hcore]
    rfl
  · rw [String.data_append]
    exact (List.suffix_append _ _).isInfix

/-- Witness for the amended C4: a concrete request with one input file and
index_type "zzz" yields HTTP 500 whose detail names "zzz". -/
theorem invalidType_500_names_type_witness :
    build_index_api load0 splitter0 fs0
      ⟨InputPath.fileList ["f"], "idx", "zzz", none, 1024, 200, none⟩ ⟨[]⟩ =
      (Except.error ⟨500, "Invalid index type: " ++ "zzz"⟩, ⟨[]⟩)
    ∧ ("zzz" : String).data <:+: ("Invalid index type: " ++ "zzz").data :=
  invalidType_500_names_type load0 splitter0 fs0
    ⟨InputPath.fileList ["f"], "idx", "zzz", none, 1024, 200, none⟩ ⟨[]⟩ ["f"]
    rfl (by decide) (by decide) (by decide) (by decide)

/-- C5 counterexample: a `/query` request whose retrieval fails (its index name
"unknown" does not exist) does not surface as a request-level HTTP 500 error:
the endpoint returns the 200 streaming response (an `Except.ok`), and the
failure happens only inside the generator, which aborts the byte stream before
yielding any fragment — no `HTTPException` is ever produced. -/
theorem streamFailure_counterexample :
    query_from_documents_api (basic_query_from_documents ["alpha"] (fun _ => []))
      printData0 ["tok"] "20250101" san0 ⟨"q", ["unknown"], 12, "/tmp/"⟩ =
      Except.ok [StreamEvent.raiseErr "index not found"] := rfl

/-- C5 (amended): a failure raised inside the streaming generator — retrieval
failures such as an unknown index name included — never becomes an HTTP 500
response: the `/query` endpoint still returns the streaming response, whose
consumption raises the error before any fragment is yielded and before any
transcript write. Only the trivial pre-stream setup is covered by the
handler's `try`/`except`. -/
theorem streamFailure_no_http_error
    (retrieve : List String → Except String (List SourceNode))
    (printData : List SourceNode → String) (llm : List String)
    (ts : String) (san : String → String) (req : QueryRequest) (e : String)
    (h : retrieve req.index_names = Except.error e) :
    query_from_documents_api retrieve printData llm ts san req =
      Except.ok [StreamEvent.raiseErr e] := by
  unfold query_from_documents_api queryGenerate
  rw [h]

/-- Witness for the amended C5: a concrete request against an empty index set
streams the raised lookup error instead of an HTTP error. -/
theorem streamFailure_no_http_error_witness :
    query_from_documents_api (basic_query_from_documents [] (fun _ => []))
      printData0 ["x"] "ts" san0 ⟨"q", ["books"], 12, "/d/"⟩ =
      Except.ok [StreamEvent.raiseErr "index not found"] :=
  streamFailure_no_http_error (basic_query_from_documents [] (fun _ => []))
    printData0 ["x"] "ts" san0 ⟨"q", ["books"], 12, "/d/"⟩ "index not found" rfl

theorem yieldedFrags_append_write (l : List String) (p : String) (r : ChatRecord) :
    yieldedFrags (l.map StreamEvent.yieldFrag ++ [StreamEvent.writeFile p r]) = l := by
  induction l with
  | nil => rfl
  | cons a t ih => simpa [yieldedFrags] using ih

/-- C6: for a `/query` stream whose retrieval succeeded and for every `/chat`
stream, the consumed generator's trace is exactly the model fragments yielded
in order followed by a single transcript write, and the answer recorded in the
transcript equals the in-order concatenation of exactly the yielded fragments:
the file is written once, only after the final fragment, with no buffering of
the answer other than the `full_response` accumulator. -/
theorem stream_transcript_exact
    (retrieve : List String → Except String (List SourceNode))
    (printData : List SourceNode → String) (llm : List String)
    (ts : String) (san : String → String) (qreq : QueryRequest) (creq : ChatRequest)
    (nodes : List SourceNode) (h : retrieve qreq.index_names = Except.ok nodes) :
    (∃ p r, queryGenerate retrieve printData llm ts san qreq =
        (yieldedFrags (queryGenerate retrieve printData llm ts san qreq)).map
          StreamEvent.yieldFrag ++ [StreamEvent.writeFile p r]
      ∧ r.answer =
        accumulated (yieldedFrags (queryGenerate retrieve printData llm ts san qreq)))
    ∧ (∃ p r, chatGenerate llm ts san creq =
        (yieldedFrags (chatGenerate llm ts san creq)).map
          StreamEvent.yieldFrag ++ [StreamEvent.writeFile p r]
      ∧ r.answer = accumulated (yieldedFrags (chatGenerate llm ts san creq))) := by
  have hq : queryGenerate retrieve printData llm ts san qreq =
      llm.map StreamEvent.yieldFrag ++
        [StreamEvent.writeFile (queryRecordFile ts san qreq.chat_record_dir qreq.question)
          ⟨queryFileName ts san qreq.question, qreq.question, accumulated llm,
            some (printData nodes)⟩] := by
    unfold queryGenerate
    rw [h]
  have hc : chatGenerate llm ts san creq =
      llm.map StreamEvent.yieldFrag ++
        [StreamEvent.writeFile (chatRecordFile ts san creq.chat_record_dir creq.question)
          ⟨chatFileName ts san creq.question, creq.question, accumulated llm, none⟩] := rfl
  constructor
  · exact ⟨queryRecordFile ts san qreq.chat_record_dir qreq.question,
      ⟨queryFileName ts san qreq.question, qreq.question, accumulated llm,
        some (printData nodes)⟩,
      by rw [hq, yieldedFrags_append_write],
      by rw [hq, yieldedFrags_append_write]⟩
  · exact ⟨chatRecordFile ts san creq.chat_record_dir creq.question,
      ⟨chatFileName ts san creq.question, creq.question, accumulated llm, none⟩,
      by rw [hc, yieldedFrags_append_write],
      by rw [hc, yieldedFrags_append_write]⟩

/-- Witness for C6: a concrete two-fragment stream for both endpoints. -/
theorem stream_transcript_exact_witness :
    (∃ p r, queryGenerate (fun _ => Except.ok ([] : List SourceNode)) printData0
        ["a", "b"] "ts" san0 ⟨"q", ["i"], 12, "/d/"⟩ =
        (yieldedFrags (queryGenerate (fun _ => Except.ok ([] : List SourceNode)) printData0
          ["a", "b"] "ts" san0 ⟨"q", ["i"], 12, "/d/"⟩)).map
          StreamEvent.yieldFrag ++ [StreamEvent.writeFile p r]
      ∧ r.answer = accumulated (yieldedFrags
          (queryGenerate (fun _ => Except.ok ([] : List SourceNode)) printData0
            ["a", "b"] "ts" san0 ⟨"q", ["i"], 12, "/d/"⟩)))
    ∧ (∃ p r, chatGenerate ["a", "b"] "ts" san0 ⟨"q", "/d/"⟩ =
        (yieldedFrags (chatGenerate ["a", "b"] "ts" san0 ⟨"q", "/d/"⟩)).map
          StreamEvent.yieldFrag ++ [StreamEvent.writeFile p r]
      ∧ r.answer = accumulated (yieldedFrags (chatGenerate ["a", "b"] "ts" san0 ⟨"q", "/d/"⟩))) :=
  stream_transcript_exact (fun _ => Except.ok ([] : List SourceNode)) printData0
    ["a", "b"] "ts" san0 ⟨"q", ["i"], 12, "/d/"⟩ ⟨"q", "/d/"⟩ [] rfl

/-- C8: input resolution of `/build-index` — when `input_path` is a directory
string, the resolved set is exactly the directory's regular files matching the
request's `file_extension` filter; when it is a list of file paths, that list
is used as-is. (The directory scan embeds the spec-modelled
`utils_get_all_files_from_directory`, since `src/utils.py` is absent.) -/
theorem resolveInput_files_spec (fs : String → Option FSEntry) (req : BuildIndexRequest) :
    (∀ d entries, req.input_path = InputPath.dirPath d →
      fs d = some (FSEntry.dir entries) →
      ∃ l, resolveInputFiles fs req = Except.ok l ∧
        ∀ x, x ∈ l ↔ ∃ name, (name, FSEntry.file) ∈ entries ∧
          matchesExt req.file_extension name = true ∧ x = d ++ "/" ++ name)
    ∧ (∀ l, req.input_path = InputPath.fileList l →
        resolveInputFiles fs req = Except.ok l) := by
  constructor
  · intro d entries hp hfs
    have hres : resolveInputFiles fs req = Except.ok
        ((entries.filter (fun e => isFileEntry e.2 && matchesExt req.file_extension e.1)).map
          (fun e => d ++ "/" ++ e.1)) := by
      unfold resolveInputFiles
      rw [hp]
      show utils_get_all_files_from_directory (fs d) d req.file_extension = _
      unfold utils_get_all_files_from_directory
      rw [hfs]
    refine ⟨_, hres, ?_⟩
    intro x
    simp only [List.mem_map, List.mem_filter]
    constructor
    · rintro ⟨⟨name, entry⟩, ⟨hmem, hfe⟩, rfl⟩
      rw [Bool.and_eq_true] at hfe
      cases entry with
      | file => exact ⟨name, hmem, hfe.2, rfl⟩
      | dir sub => simp [isFileEntry] at hfe
    · rintro ⟨name, hmem, hext, rfl⟩
      exact ⟨(name, FSEntry.file), ⟨hmem, by simp [isFileEntry, hext]⟩, rfl⟩
  · intro l hp
    unfold resolveInputFiles
    rw [hp]

/-- Witness for C8: scanning the concrete directory "docs" with filter ".md"
resolves "docs/a.md". -/
theorem resolveInput_files_spec_witness :
    ∃ l, resolveInputFiles fsW
      ⟨InputPath.dirPath "docs", "idx", "basic", some ".md", 1024, 200, none⟩ =
      Except.ok l ∧ "docs/a.md" ∈ l := by
  obtain ⟨l, hl, hiff⟩ := (resolveInput_files_spec fsW
    ⟨InputPath.dirPath "docs", "idx", "basic", some ".md", 1024, 200, none⟩).1
    "docs" [("a.md", FSEntry.file), ("sub", FSEntry.dir []), ("b.txt", FSEntry.file)]
    rfl rfl
  exact ⟨l, hl, (hiff "docs/a.md").mpr ⟨"a.md", List.mem_cons_self _ _, by decide, rfl⟩⟩

/-- C9: the persisted transcript path is
`os.path.join(chat_record_dir, timestamp ++ prefix ++ sanitized-question ++ ".md")`
with the query-specific prefix "RAG-" for `/query` and "Chat-" for `/chat`; in
particular, for a directory ending in the separator the full path is the
directory followed by that file name. -/
theorem transcript_path_scheme (ts : String) (san : String → String) (dir q : String) :
    (queryRecordFile ts san dir q = os_path_join dir (ts ++ "RAG-" ++ san q ++ ".md")
      ∧ chatRecordFile ts san dir q = os_path_join dir (ts ++ "Chat-" ++ san q ++ ".md"))
    ∧ (strEndsWith dir "/" = true →
        strStartsWith (ts ++ "RAG-" ++ san q ++ ".md") "/" = false →
        queryRecordFile ts san dir q = dir ++ (ts ++ "RAG-" ++ san q ++ ".md"))
    ∧ (strEndsWith dir "/" = true →
        strStartsWith (ts ++ "Chat-" ++ san q ++ ".md") "/" = false →
        chatRecordFile ts san dir q = dir ++ (ts ++ "Chat-" ++ san q ++ ".md")) := by
  refine ⟨⟨rfl, rfl⟩, ?_, ?_⟩
  · intro h1 h2
    unfold queryRecordFile queryFileName os_path_join
    rw [if_neg (by rw [h2]; exact Bool.false_ne_true), h1, Bool.or_true, if_pos rfl]
  · intro h1 h2
    unfold chatRecordFile chatFileName os_path_join
    rw [if_neg (by rw [h2]; exact Bool.false_ne_true), h1, Bool.or_true, if_pos rfl]

/-- Witness for C9: concrete timestamp, record directory and question. -/
theorem transcript_path_scheme_witness :
    queryRecordFile "20250101-" san0 "/rec/" "hi" =
      "/rec/" ++ ("20250101-" ++ "RAG-" ++ san0 "hi" ++ ".md")
    ∧ chatRecordFile "20250101-" san0 "/rec/" "hi" =
      "/rec/" ++ ("20250101-" ++ "Chat-" ++ san0 "hi" ++ ".md") :=
  ⟨(transcript_path_scheme "20250101-" san0 "/rec/" "hi").2.1 (by decide) (by decide),
   (transcript_path_scheme "20250101-" san0 "/rec/" "hi").2.2 (by decide) (by decide)⟩
